import Mathlib

/-!
Verification of the voice-note ingestion pipeline core: the transcription /
analysis / CRM-sync stages, the PKCE OAuth authorization-code flow, and the
partial-failure-tolerant CRM synchronization.  Pure control flow and data
transformations are embedded as executable Lean definitions; external
collaborators (the SHA-256 primitive, network call outcomes, storage) appear
as explicit parameters.
-/

set_option maxRecDepth 8000

namespace FieldIntel

/-- JavaScript truthiness of a possibly-null string value: null/undefined and
the empty string are falsy, every other string is truthy. -/
def jsTruthy : Option String → Bool
  | some s => s ≠ ""
  | none => false

/-- The string carried by a possibly-null value, with empty-string default. -/
def optStr (o : Option String) : String := o.getD ""

/-- Rendering of a JS boolean by console.log. -/
def jsBoolStr (b : Bool) : String := if b then "true" else "false"

/-- JS String.prototype.substring(0, n) for the ASCII strings used here. -/
def strTake (s : String) (n : Nat) : String := String.mk (s.data.take n)

/-- JS String.prototype.substring(n) for the ASCII strings used here. -/
def strDrop (s : String) (n : Nat) : String := String.mk (s.data.drop n)

/-- The standard base64 alphabet used by btoa. -/
def base64Alphabet : List Char :=
  "ABCDEFGHIJKLMNOPQRSTUVWXYZabcdefghijklmnopqrstuvwxyz0123456789+/".data

/-- The base64 digit for a 6-bit value. -/
def base64Digit (n : Nat) : Char := base64Alphabet.getD n 'A'

/-- btoa on a byte list: standard base64 with padding.  Three input bytes map
to four digits; a final group of one or two bytes is padded with equal
signs. -/
def base64Encode : List Nat → String
  | [] => ""
  | [a] =>
      String.mk [base64Digit (a / 4), base64Digit (a % 4 * 16), '=', '=']
  | [a, b] =>
      String.mk [base64Digit (a / 4), base64Digit (a % 4 * 16 + b / 16),
        base64Digit (b % 16 * 4), '=']
  | a :: b :: c :: rest =>
      String.mk [base64Digit (a / 4), base64Digit (a % 4 * 16 + b / 16),
        base64Digit (b % 16 * 4 + c / 64), base64Digit (c % 64)] ++
        base64Encode rest

/-- The character rewriting done by salesforce.js base64UrlEncode on the btoa
output: plus becomes dash, slash becomes underscore, equals is deleted.  The
source applies three global single-character String.replace calls, which is
exactly a character-wise filterMap. -/
def base64UrlChar (c : Char) : Option Char :=
  if c = '+' then some '-'
  else if c = '/' then some '_'
  else if c = '=' then none
  else some c

/-- base64UrlEncode from salesforce.js lines 70-80: btoa on the bytes, then
the url-safe character replacements with padding stripped. -/
def base64UrlEncode (bytes : List Nat) : String :=
  String.mk ((base64Encode bytes).data.filterMap base64UrlChar)

/-- TextEncoder().encode for the ASCII strings used by the OAuth flow (PKCE
verifiers are drawn from an ASCII charset, where UTF-8 bytes coincide with
code points). -/
def encodeBytes (s : String) : List Nat := s.data.map Char.toNat

/-- The verifier charset of generateRandomString (salesforce.js line 48):
65 characters, all URL-safe without percent-encoding. -/
def verifierCharset : List Char :=
  "ABCDEFGHIJKLMNOPQRSTUVWXYZabcdefghijklmnopqrstuvwxyz0123456789-._".data

/-- generateRandomString (salesforce.js lines 44-58): each crypto-random byte
indexes the charset modulo its length.  The external randomness from
crypto.getRandomValues is the input byte list; the requested length is its
length. -/
def generateRandomString (randomValues : List Nat) : String :=
  String.mk (randomValues.map fun b =>
    verifierCharset.getD (b % verifierCharset.length) 'A')

/-- generateCodeChallenge (salesforce.js lines 60-68): base64url of the
SHA-256 hash of the UTF-8 bytes of the verifier.  The SHA-256 primitive
(crypto.subtle.digest, an external browser API) is a parameter of the
embedding. -/
def generateCodeChallenge (sha256 : List Nat → List Nat)
    (verifier : String) : String :=
  base64UrlEncode (sha256 (encodeBytes verifier))

/-- generatePKCE (salesforce.js lines 34-42): a verifier built from the
random bytes, and its challenge. -/
def generatePKCE (sha256 : List Nat → List Nat)
    (randomValues : List Nat) : String × String :=
  let verifier := generateRandomString randomValues
  let challenge := generateCodeChallenge sha256 verifier
  (verifier, challenge)

/-- The decoded OAuth state blob (salesforce.js lines 97-102): a CSRF nonce,
the PKCE verifier and challenge, and the creation timestamp in ms.  The
challenge is optional because older state blobs may lack it (the callback
logs that case as not stored and skips verification). -/
structure StateData where
  random : String
  verifier : String
  challenge : Option String
  timestamp : Int
deriving DecidableEq

/-- Observable outcome of handleSalesforceCallback up to the token-exchange
boundary: either the function returns a failure without issuing the exchange
request, or it issues the token-exchange request to the edge function with
the given code verifier.  No CRM credential can be written unless the
exchange request is issued. -/
inductive CallbackOutcome where
  | failure (msg : String)
  | exchange (codeVerifier : String)
deriving DecidableEq

/-- Whether the outcome reached the token-exchange request. -/
def CallbackOutcome.reachesExchange : CallbackOutcome → Bool
  | .failure _ => false
  | .exchange _ => true

/-- Tail of handleSalesforceCallback after a code verifier has been selected
(salesforce.js lines 199-313): the falsy-verifier guard at line 199, the
session retrieval (lines 214-260, summarized by sessionOk), and the
challenge re-verification at lines 265-287, which only runs when the decoded
state carries a truthy challenge and rejects on mismatch; then the exchange
request is issued. -/
def callbackAfterDecode (sha256 : List Nat → List Nat)
    (stateData : Option StateData) (codeVerifier : String)
    (sessionOk : Bool) : CallbackOutcome :=
  if codeVerifier = "" then
    .failure "Code verifier not found - unable to complete OAuth"
  else if sessionOk = false then
    .failure "Not authenticated - please log in again"
  else
    let regenerated := generateCodeChallenge sha256 codeVerifier
    let original := stateData.bind StateData.challenge
    if jsTruthy original ∧ regenerated ≠ optStr original then
      .failure "Code verifier verification failed - verifier was corrupted"
    else
      .exchange codeVerifier

/-- The sessionStorage fallback path of handleSalesforceCallback: the catch
block at salesforce.js lines 185-197.  The code verifier is re-read from the
sessionStorage backup; if it is falsy the function fails, otherwise the flow
continues with whatever stateData had been assigned before the throw. -/
def callbackFallback (sha256 : List Nat → List Nat)
    (stateData : Option StateData) (sessionVerifier : Option String)
    (sessionOk : Bool) : CallbackOutcome :=
  if jsTruthy sessionVerifier = false then
    .failure "Code verifier not found - possible session issue or expired state"
  else
    callbackAfterDecode sha256 stateData (optStr sessionVerifier) sessionOk

/-- handleSalesforceCallback (salesforce.js lines 144-341), embedded up to
the token-exchange request.  decodedState is the result of the atob and
JSON.parse of the state query parameter (none when decoding threw);
sessionState and sessionVerifier are the sessionStorage backups written at
initiation; now is Date.now() at callback time; sessionOk says whether a
user session was obtained.

The decode, the 10-minute expiry check (line 170) and the nonce comparison
(line 179) all sit inside one try block whose catch (line 185) diverts to
the sessionStorage fallback, so the throws raised by the expiry and nonce
checks are swallowed by that catch instead of reaching the caller; stateData
keeps the value assigned at line 161 in those cases. -/
def handleSalesforceCallback (sha256 : List Nat → List Nat) (now : Int)
    (decodedState : Option StateData)
    (sessionState sessionVerifier : Option String)
    (sessionOk : Bool) : CallbackOutcome :=
  match decodedState with
  | none => callbackFallback sha256 none sessionVerifier sessionOk
  | some sd =>
      if now - sd.timestamp > 10 * 60 * 1000 then
        callbackFallback sha256 (some sd) sessionVerifier sessionOk
      else if jsTruthy sessionState ∧ optStr sessionState ≠ sd.random then
        callbackFallback sha256 (some sd) sessionVerifier sessionOk
      else
        callbackAfterDecode sha256 (some sd) sd.verifier sessionOk

/-- Uppercase hexadecimal digit. -/
def hexDigit (n : Nat) : Char := "0123456789ABCDEF".data.getD n '0'

/-- application/x-www-form-urlencoded encoding of one ASCII code point, as
URLSearchParams serialization performs it: alphanumerics and asterisk, dash,
dot, underscore pass through, space becomes plus, everything else is
percent-encoded.  The strings serialized here (authorization codes, PKCE
verifiers, redirect URIs, client credentials) are ASCII. -/
def formEncodeChar (c : Char) : String :=
  if c.isAlphanum ∨ c = '*' ∨ c = '-' ∨ c = '.' ∨ c = '_' then
    String.singleton c
  else if c = ' ' then "+"
  else String.mk ['%', hexDigit (c.toNat / 16 % 16), hexDigit (c.toNat % 16)]

/-- application/x-www-form-urlencoded encoding of an ASCII string. -/
def formEncode (s : String) : String :=
  String.join (s.data.map formEncodeChar)

/-- URLSearchParams.toString for a list of key-value pairs. -/
def formUrlEncode (params : List (String × String)) : String :=
  String.intercalate "&" (params.map fun p => formEncode p.1 ++ "=" ++ formEncode p.2)

/-- The token-endpoint request body built at salesforce-oauth/index.ts lines
82-89: the serialized URLSearchParams holding grant type, authorization
code, client id, client secret, redirect URI and code verifier. -/
def tokenRequestBody (code clientId clientSecret redirectUri
    codeVerifier : String) : String :=
  formUrlEncode [("grant_type", "authorization_code"), ("code", code),
    ("client_id", clientId), ("client_secret", clientSecret),
    ("redirect_uri", redirectUri), ("code_verifier", codeVerifier)]

/-- The console.log lines emitted by the salesforce-oauth edge function from
line 35 up to the token-endpoint fetch at line 103, on the path where the
request fields and both client credentials are present.  console.log with
several arguments joins them with single spaces; substring(0, n) is strTake
and substring(len - 30) is strDrop. -/
def oauthExchangeLogs (sha256 : List Nat → List Nat)
    (code codeVerifier redirectUri clientId clientSecret : String) :
    List String :=
  [ "[Salesforce OAuth] Exchanging authorization code for tokens",
    "[Salesforce OAuth] Code: " ++ strTake code 20 ++ "...",
    "[Salesforce OAuth] Code verifier: " ++ strTake codeVerifier 20 ++ "...",
    "[Salesforce OAuth] Code verifier length: " ++ toString codeVerifier.length,
    "[Salesforce OAuth] Redirect URI: " ++ redirectUri,
    "[Salesforce OAuth] Environment check:",
    "[Salesforce OAuth]   - Client ID present: " ++ jsBoolStr (clientId ≠ ""),
    "[Salesforce OAuth]   - Client ID (first 20): " ++ strTake clientId 20 ++ "...",
    "[Salesforce OAuth]   - Client Secret present: " ++ jsBoolStr (clientSecret ≠ ""),
    "[Salesforce OAuth] Verifying code_verifier integrity in Edge Function...",
    "[Salesforce OAuth]   - Regenerated challenge: " ++
      generateCodeChallenge sha256 codeVerifier,
    "[Salesforce OAuth]   - This should match the challenge sent in authorization request",
    "[Salesforce OAuth] Token exchange request:",
    "[Salesforce OAuth]   - URL: https://login.salesforce.com/services/oauth2/token",
    "[Salesforce OAuth]   - grant_type: authorization_code",
    "[Salesforce OAuth]   - code: " ++ strTake code 20 ++ "...",
    "[Salesforce OAuth]   - client_id: " ++ clientId,
    "[Salesforce OAuth]   - redirect_uri: " ++ redirectUri,
    "[Salesforce OAuth]   - code_verifier length: " ++ toString codeVerifier.length,
    "[Salesforce OAuth]   - code_verifier (raw): " ++ codeVerifier,
    "[Salesforce OAuth]   - code_verifier (first 30): " ++ strTake codeVerifier 30,
    "[Salesforce OAuth]   - code_verifier (last 30): " ++
      strDrop codeVerifier (codeVerifier.length - 30),
    "[Salesforce OAuth]   - Full request body: " ++
      tokenRequestBody code clientId clientSecret redirectUri codeVerifier ]

/-- Splits a character list at every character satisfying the predicate,
keeping empty segments, as JS String.prototype.split does with a
single-character or single-class separator. -/
def splitChars (p : Char → Bool) : List Char → List (List Char)
  | [] => [[]]
  | c :: rest =>
      match splitChars p rest with
      | [] => if p c then [[], []] else [[c]]
      | w :: ws => if p c then [] :: w :: ws else (c :: w) :: ws

/-- Word count of a transcript (transcribe/index.ts line 117): split on
whitespace and keep the non-empty words; splitting at every whitespace
character and filtering empties equals splitting on whitespace runs. -/
def wordCount (text : String) : Nat :=
  ((splitChars Char.isWhitespace text.data).filter (fun w => w ≠ [])).length

/-- The heuristic transcription confidence (transcribe/index.ts line 121):
min(0.95, 0.7 + wordCount / 1000 * 0.2).  Real arithmetic is modelled
exactly over the rationals. -/
def transcriptConfidence (wc : Nat) : ℚ :=
  min 0.95 (0.7 + ((wc : ℚ) / 1000) * 0.2)

/-- The confidence score the Transcription Stage persists for a transcript
text (transcribe/index.ts lines 116-121 and 148). -/
def storedConfidence (text : String) : ℚ :=
  transcriptConfidence (wordCount text)

/-- A contact object as it travels through analysis JSON and crm-sync
(crm-sync/index.ts SalesforceContact).  All fields are optional at runtime:
the provider JSON may omit any of them, which the sync code guards with
optional chaining and truthiness checks. -/
structure SFContact where
  name : Option String
  email : Option String
  phone : Option String
  company : Option String
  title : Option String
  confidence : Option ℚ
deriving DecidableEq

/-- An action item as it travels through analysis JSON and crm-sync
(crm-sync/index.ts SalesforceTask). -/
structure SFTask where
  title : Option String
  description : Option String
  priority : Option String
  due_date : Option String
deriving DecidableEq

/-- The extraction result parsed from the text-generation provider JSON in
the analyze function, restricted to the fields that drive persistence and
the auto-sync gate.  Fields are optional: the provider may omit them. -/
structure ExtractedData where
  confidence_score : Option ℚ
  contacts : Option (List SFContact)
  action_items : Option (List SFTask)

/-- The confidence score the Analysis Stage persists: the parsed
confidence_score with JS falsy-default zero (analyze handler, the insert at
confidence_score). -/
def persistedConfidence (d : ExtractedData) : ℚ :=
  match d.confidence_score with
  | some c => if c = 0 then 0 else c
  | none => 0

/-- The contacts list the Analysis Stage persists: the parsed contacts with
default empty list. -/
def persistedContacts (d : ExtractedData) : List SFContact :=
  d.contacts.getD []

/-- shouldAutoSync from the analyze handler: the raw parsed
confidence_score compares at least 0.8 (a JS comparison against undefined
is false) and the raw contacts list has positive length (optional chaining:
undefined is not greater than zero). -/
def shouldAutoSync (d : ExtractedData) : Bool :=
  (match d.confidence_score with
    | some c => decide (0.8 ≤ c)
    | none => false)
  && (match d.contacts with
    | some l => decide (0 < l.length)
    | none => false)

/-- Number of Sync Stage invocations the analyze handler issues: the single
fire-and-forget fetch in the shouldAutoSync branch. -/
def autoSyncInvocations (d : ExtractedData) : Nat :=
  if shouldAutoSync d then 1 else 0

/-- Outcome of one per-item CRM operation, decided by the external CRM API:
a successful upsert or creation returns the remote id, a failure carries the
thrown error message. -/
inductive ItemOutcome where
  | ok (id : String)
  | err (msg : String)
deriving DecidableEq

/-- The contact loop of the crm-sync handler (lines 157-171): each contact
is attempted; a success appends the result, a failure appends the error
message without aborting the batch.  The external per-call outcome is given
by the oracle, indexed by position.  Returns the synced remote ids and the
accumulated error messages, in order. -/
def runContactSync : List SFContact → (Nat → ItemOutcome) → Nat →
    List String × List String
  | [], _, _ => ([], [])
  | c :: rest, oracle, i =>
      match oracle i with
      | .ok id =>
          let r := runContactSync rest oracle (i + 1)
          (id :: r.1, r.2)
      | .err m =>
          let r := runContactSync rest oracle (i + 1)
          (r.1, ("Failed to sync contact " ++ optStr c.name ++ ": " ++ m) :: r.2)

/-- The task loop of the crm-sync handler (lines 174-192), mirrored from the
contact loop with the task error-message format. -/
def runTaskSync : List SFTask → (Nat → ItemOutcome) → Nat →
    List String × List String
  | [], _, _ => ([], [])
  | t :: rest, oracle, i =>
      match oracle i with
      | .ok id =>
          let r := runTaskSync rest oracle (i + 1)
          (id :: r.1, r.2)
      | .err m =>
          let r := runTaskSync rest oracle (i + 1)
          (r.1, ("Failed to sync task " ++ optStr t.title ++ ": " ++ m) :: r.2)

/-- The overall status classification of the crm-sync handler (lines
194-197): failed when nothing synced while something was attempted, else
partial when any error accumulated, else completed. -/
def syncOutcomeStatus (contacts : List SFContact) (tasks : List SFTask)
    (syncedContacts syncedTasks errors : List String) : String :=
  if syncedContacts.length = 0 ∧ syncedTasks.length = 0 ∧
      (0 < contacts.length ∨ 0 < tasks.length) then "failed"
  else if 0 < errors.length then "partial"
  else "completed"

/-- The CRM credential fields read from the user profile by the crm-sync
handler (line 93): provider, connection flag, access token, and the instance
URL from settings. -/
structure CrmProfile where
  crm_provider : Option String
  crm_connected : Bool
  crm_access_token : Option String
  salesforce_instance_url : Option String
deriving DecidableEq

/-- The analysis row fields the crm-sync handler reads (lines 143-144). -/
structure AnalysisRow where
  contacts : Option (List SFContact)
  action_items : Option (List SFTask)

/-- Observable result of one crm-sync invocation: the status of the single
SyncLog row written, the HTTP status, the success flag of the response body,
the number of per-item CRM operations attempted, and whether the recording
status was advanced to synced. -/
structure SyncResponse where
  logStatus : String
  httpStatus : Nat
  respSuccess : Bool
  crmItemOps : Nat
  recordingSetSynced : Bool
deriving DecidableEq

/-- The crm-sync serve handler (crm-sync/index.ts lines 45-296) after the
analysis row and profile have been fetched.  Not-connected profiles write a
skipped SyncLog and return HTTP 200 before any CRM call (lines 103-125); a
non-salesforce provider or a missing instance URL throws into the outer
catch, which writes a failed SyncLog and returns HTTP 500 (lines 130-137,
252-295); otherwise the per-item loops run, the outcome is classified, one
SyncLog row records it, and the recording advances to synced only on
completed (lines 143-250). -/
def crmSyncHandler (profile : CrmProfile) (analysis : AnalysisRow)
    (contactOracle taskOracle : Nat → ItemOutcome) : SyncResponse :=
  if ¬ (profile.crm_connected ∧ jsTruthy profile.crm_access_token) then
    { logStatus := "skipped", httpStatus := 200, respSuccess := false,
      crmItemOps := 0, recordingSetSynced := false }
  else if profile.crm_provider ≠ some "salesforce" then
    { logStatus := "failed", httpStatus := 500, respSuccess := false,
      crmItemOps := 0, recordingSetSynced := false }
  else if ¬ jsTruthy profile.salesforce_instance_url then
    { logStatus := "failed", httpStatus := 500, respSuccess := false,
      crmItemOps := 0, recordingSetSynced := false }
  else
    let contacts := analysis.contacts.getD []
    let tasks := analysis.action_items.getD []
    let cr := runContactSync contacts contactOracle 0
    let tr := runTaskSync tasks taskOracle 0
    let status := syncOutcomeStatus contacts tasks cr.1 tr.1 (cr.2 ++ tr.2)
    { logStatus := status, httpStatus := 200,
      respSuccess := status ≠ "failed",
      crmItemOps := contacts.length + tasks.length,
      recordingSetSynced := status = "completed" }

/-- First truthy value of a JS expression a or b or c where c is a plain
string, with JS string truthiness. -/
def firstTruthyStr (a b : Option String) (c : String) : String :=
  if jsTruthy a then optStr a
  else if jsTruthy b then optStr b
  else c

/-- The name parts of a contact (crm-sync/index.ts line 310):
contact.name?.split(single space) with empty-list default.  JS split on a
single space cuts at every space character, keeping empty segments. -/
def sfNameParts (name : Option String) : List String :=
  match name with
  | some s => (splitChars (fun c => c = ' ') s.data).map String.mk
  | none => []

/-- The FirstName computed at crm-sync/index.ts line 311: all but the last
name part, joined by spaces. -/
def sfFirstName (name : Option String) : String :=
  String.intercalate " " (sfNameParts name).dropLast

/-- The LastName computed at crm-sync/index.ts line 312: the last name part,
else the whole name, else the literal Unknown, under JS truthiness. -/
def sfLastName (name : Option String) : String :=
  firstTruthyStr (sfNameParts name).getLast? name "Unknown"

/-- The payload built by syncContactToSalesforce (crm-sync/index.ts lines
314-328) and sent unchanged to both the PATCH update and the POST create
call.  FirstName is dropped when falsy (line 316); the optional fields are
added only when truthy; Description is added when a truthy confidence is
present, with Math.round of the percentage. -/
structure SFContactData where
  FirstName : Option String
  LastName : String
  Email : Option String
  Phone : Option String
  Title : Option String
  Account : Option String
  Description : Option String
deriving DecidableEq

/-- Builds the contact payload of syncContactToSalesforce. -/
def mkContactData (c : SFContact) : SFContactData :=
  { FirstName := if sfFirstName c.name ≠ "" then some (sfFirstName c.name) else none,
    LastName := sfLastName c.name,
    Email := if jsTruthy c.email then c.email else none,
    Phone := if jsTruthy c.phone then c.phone else none,
    Title := if jsTruthy c.title then c.title else none,
    Account := if jsTruthy c.company then c.company else none,
    Description :=
      match c.confidence with
      | some q =>
          if q = 0 then none
          else some ("Extracted from voice recording. Confidence: " ++
            toString (round (q * 100)) ++ "%")
      | none => none }

/-- The recording status values of the pipeline state machine. -/
inductive RecStatus where
  | completed
  | transcribing
  | transcribed
  | analyzing
  | analyzed
  | synced
  | failed
deriving DecidableEq

/-- How far one stage invocation gets: rejected before any status write
(missing fields), failed before its in-progress write (configuration error:
the catch still records failed), failed after the in-progress write, or
success. -/
inductive StageRun where
  | noWrite
  | earlyFail
  | midFail
  | success
deriving DecidableEq

/-- The recording-status writes of one transcribe invocation, in order
(transcribe/index.ts lines 63-67, 162-166, 200-213). -/
def transcribeWrites : StageRun → List RecStatus
  | .noWrite => []
  | .earlyFail => [.failed]
  | .midFail => [.transcribing, .failed]
  | .success => [.transcribing, .transcribed]

/-- The recording-status writes of one analyze invocation, in order
(analyze handler: the analyzing update, the analyzed update, and the failed
update in the catch). -/
def analyzeWrites : StageRun → List RecStatus
  | .noWrite => []
  | .earlyFail => [.failed]
  | .midFail => [.analyzing, .failed]
  | .success => [.analyzing, .analyzed]

/-- The recording-status writes of one crm-sync invocation: only a completed
classification advances the recording to synced (crm-sync/index.ts lines
221-227); every other outcome, including the outer catch, leaves the
recording status untouched. -/
def syncWrites (completed : Bool) : List RecStatus :=
  if completed then [.synced] else []

/-- The full sequence of status values a recording takes under the pipeline
chain: created as completed on upload, then the transcribe writes, then on
transcribe success the fire-and-forget analyze writes, then on analyze
success with the auto-sync gate open the fire-and-forget sync writes. -/
def pipelineStatusTrace (t a : StageRun) (autoSync syncCompleted : Bool) :
    List RecStatus :=
  RecStatus.completed ::
    (transcribeWrites t ++
      if t = .success then
        analyzeWrites a ++
          (if a = .success ∧ autoSync then syncWrites syncCompleted else [])
      else [])

/-- Position of a status on the forward pipeline walk. -/
def statusRank : RecStatus → Nat
  | .completed => 0
  | .transcribing => 1
  | .transcribed => 2
  | .analyzing => 3
  | .analyzed => 4
  | .synced => 5
  | .failed => 6

/-- One admissible step of the claimed state machine: either a jump to
failed, or a forward (non-decreasing) move between non-failed statuses. -/
def statusStepOk (a b : RecStatus) : Bool :=
  b = RecStatus.failed ∨
    (a ≠ RecStatus.failed ∧ statusRank a ≤ statusRank b)

/-- Every adjacent pair of a status list satisfies the step predicate. -/
def statusChainOk : List RecStatus → Bool
  | [] => true
  | [_] => true
  | a :: b :: rest => statusStepOk a b && statusChainOk (b :: rest)

/-- C1: an OAuth callback whose decoded state is more than 10 minutes old is
not always rejected: the expiry throw is swallowed by the decode-failure
catch, the flow falls back to the sessionStorage verifier, and the token
exchange is reached.  Concretely, with a state stamped at time 0 processed
at 600001 ms (just over 10 minutes), a matching nonce and verifier backup in
session storage, and an internally consistent challenge, the outcome is the
exchange request, not a failure. -/
theorem oauth_expired_callback_reaches_exchange :
    ((600001 : Int) - 0 > 10 * 60 * 1000) ∧
    handleSalesforceCallback (fun _ => [0]) 600001
        (some { random := "r", verifier := "v",
                challenge := some (base64UrlEncode [0]), timestamp := 0 })
        (some "r") (some "v") true
      = CallbackOutcome.exchange "v" := by
  constructor
  · decide
  · rfl

/-- C2: an OAuth callback whose decoded state carries a nonce differing from
the session-scoped backup does not fail closed: the CSRF throw is swallowed
by the decode-failure catch, the flow falls back to the sessionStorage
verifier, and the token exchange is reached.  Concretely, with a fresh state
carrying nonce attacker while the session backup holds victim, and a backup
verifier present, the outcome is the exchange request, not a failure. -/
theorem oauth_nonce_mismatch_reaches_exchange :
    ("victim" ≠ "attacker") ∧
    handleSalesforceCallback (fun _ => [0]) 1000
        (some { random := "attacker", verifier := "av",
                challenge := none, timestamp := 0 })
        (some "victim") (some "vv") true
      = CallbackOutcome.exchange "vv" := by
  constructor
  · decide
  · rfl

/-- C7 counterexample: a callback whose decoded state embeds a challenge
that does not match the hash of the embedded verifier can still reach the
token exchange, in two ways.  First, with an expired state the flow is
diverted to the sessionStorage fallback, and the verification then compares
the challenge against the hash of the session verifier instead of the
embedded one, and passes (the hash parameter sends the session verifier
goodv to byte 0 and everything else to byte 1).  Second, on the main path
(fresh state, matching nonce, no fallback) an embedded empty-string
challenge is JS-falsy, so the re-verification at salesforce.js lines
276-282 is skipped entirely and the exchange is reached even though the
empty challenge differs from the recomputed hash of the embedded
verifier. -/
theorem pkce_embedded_mismatch_reaches_exchange :
    ((some (base64UrlEncode [0]) ≠
      some (generateCodeChallenge
        (fun bs => if bs = encodeBytes "goodv" then [0] else [1]) "badv")) ∧
    (handleSalesforceCallback
        (fun bs => if bs = encodeBytes "goodv" then [0] else [1]) 600001
        (some { random := "r", verifier := "badv",
                challenge := some (base64UrlEncode [0]), timestamp := 0 })
        (some "r") (some "goodv") true).reachesExchange = true) ∧
    (("" ≠ generateCodeChallenge (fun _ => [0]) "v") ∧
    (handleSalesforceCallback (fun _ => [0]) 1000
        (some { random := "r", verifier := "v",
                challenge := some "", timestamp := 0 })
        (some "r") none true).reachesExchange = true) := by
  refine ⟨⟨?_, ?_⟩, ?_, ?_⟩
  · decide
  · rfl
  · decide
  · rfl

/-- C7 (amended): for every generated pair the challenge is the base64url of
the hash of the verifier; and every callback processed through its decoded
state (state decodes, is not expired, and the nonce agrees with any
session backup, so the sessionStorage fallback is not taken) whose embedded
challenge is a non-empty string (JS-truthy: the code skips the
re-verification entirely for a falsy embedded challenge) and differs from
the recomputed hash of the embedded verifier is rejected before the
token-exchange request is issued, hence before any token-endpoint call and
any CRM credential write. -/
theorem pkce_roundtrip_and_mainpath_mismatch_rejected :
    (∀ (sha256 : List Nat → List Nat) (randomValues : List Nat),
      (generatePKCE sha256 randomValues).2 =
        base64UrlEncode (sha256 (encodeBytes (generatePKCE sha256 randomValues).1))) ∧
    (∀ (sha256 : List Nat → List Nat) (now : Int) (sd : StateData)
        (sessionState sessionVerifier : Option String) (sessionOk : Bool),
      ¬ (now - sd.timestamp > 10 * 60 * 1000) →
      ¬ (jsTruthy sessionState ∧ optStr sessionState ≠ sd.random) →
      ∀ c, sd.challenge = some c → c ≠ "" →
      c ≠ generateCodeChallenge sha256 sd.verifier →
      (handleSalesforceCallback sha256 now (some sd) sessionState
          sessionVerifier sessionOk).reachesExchange = false) := by
  constructor
  · intro sha256 randomValues
    rfl
  · intro sha256 now sd sessionState sessionVerifier sessionOk hexp hnonce c hc hcne hmismatch
    simp only [handleSalesforceCallback]
    rw [if_neg hexp, if_neg hnonce]
    unfold callbackAfterDecode
    by_cases hv : sd.verifier = ""
    · rw [if_pos hv]
      rfl
    · rw [if_neg hv]
      cases sessionOk with
      | false => rfl
      | true =>
          simp only [Bool.true_eq_false, if_false]
          have horig : (some sd).bind StateData.challenge = some c := by
            simp [hc]
          rw [if_pos]
          · rfl
          · refine ⟨?_, ?_⟩
            · rw [horig]
              simp [jsTruthy, hcne]
            · rw [horig]
              simp [optStr]
              intro h
              exact hmismatch (h ▸ rfl)

/-- Witness for the amended C7 theorem at a concrete instance: a fresh,
nonce-consistent callback whose embedded challenge X differs from the
recomputed challenge of the embedded verifier is rejected. -/
theorem pkce_mainpath_mismatch_rejected_witness :
    (handleSalesforceCallback (fun _ => [0]) 0
        (some { random := "r", verifier := "v",
                challenge := some "X", timestamp := 0 })
        (some "r") none true).reachesExchange = false :=
  pkce_roundtrip_and_mainpath_mismatch_rejected.2 (fun _ => [0]) 0
    { random := "r", verifier := "v", challenge := some "X", timestamp := 0 }
    (some "r") none true (by decide) (by decide) "X" rfl (by decide) (by decide)

/-- C3: the token-exchange logging leaks secrets in full.  For every
invocation that reaches the token-exchange request, the log contains the
line printing the raw code verifier in full; and at a concrete input the
full-request-body log renders the client secret in full inside the
serialized form body. -/
theorem oauth_exchange_logs_leak_secrets :
    (∀ (sha256 : List Nat → List Nat)
        (code codeVerifier redirectUri clientId clientSecret : String),
      ("[Salesforce OAuth]   - code_verifier (raw): " ++ codeVerifier) ∈
        oauthExchangeLogs sha256 code codeVerifier redirectUri clientId clientSecret) ∧
    tokenRequestBody "thecode" "cid123" "TOPSECRETclientSECRET99"
        "https://app.example/cb" "verifier0123456789" =
      "grant_type=authorization_code&code=thecode&client_id=cid123&client_secret=" ++
        "TOPSECRETclientSECRET99" ++
        "&redirect_uri=https%3A%2F%2Fapp.example%2Fcb&code_verifier=verifier0123456789" := by
  constructor
  · intro sha256 code codeVerifier redirectUri clientId clientSecret
    simp [oauthExchangeLogs]
  · decide

/-- C9: the stored transcription confidence is exactly
min(0.95, 0.7 + wordCount / 1000 * 0.2) of the whitespace word count, always
lies in the closed interval from 0.7 to 0.95, and is monotone non-decreasing
in the word count. -/
theorem transcribe_confidence_formula :
    (∀ text : String,
      storedConfidence text =
        min 0.95 (0.7 + ((wordCount text : ℚ) / 1000) * 0.2)) ∧
    (∀ wc : Nat,
      0.7 ≤ transcriptConfidence wc ∧ transcriptConfidence wc ≤ 0.95) ∧
    (∀ w1 w2 : Nat, w1 ≤ w2 →
      transcriptConfidence w1 ≤ transcriptConfidence w2) := by
  refine ⟨fun text => rfl, fun wc => ⟨?_, ?_⟩, fun w1 w2 h => ?_⟩
  · unfold transcriptConfidence
    have hnn : (0 : ℚ) ≤ ((wc : ℚ) / 1000) * 0.2 := by positivity
    have h1 : (0.7 : ℚ) ≤ 0.95 := by norm_num
    have h2 : (0.7 : ℚ) ≤ 0.7 + ((wc : ℚ) / 1000) * 0.2 := by linarith
    exact le_min h1 h2
  · exact min_le_left _ _
  · unfold transcriptConfidence
    have hq : ((w1 : ℚ)) ≤ ((w2 : ℚ)) := by exact_mod_cast h
    have : (0.7 : ℚ) + ((w1 : ℚ) / 1000) * 0.2 ≤ 0.7 + ((w2 : ℚ) / 1000) * 0.2 := by
      linarith
    exact min_le_min le_rfl this

/-- Witness for the C9 theorem at concrete word counts 2 and 5. -/
theorem transcribe_confidence_formula_witness :
    (2 : Nat) ≤ 5 ∧ transcriptConfidence 2 ≤ transcriptConfidence 5 :=
  ⟨by decide, transcribe_confidence_formula.2.2 2 5 (by decide)⟩

/-- The persisted confidence equals the raw parsed score whenever the score
was present: the JS falsy-default only replaces zero by zero. -/
theorem persistedConfidence_some (c : ℚ) (cts : Option (List SFContact))
    (ai : Option (List SFTask)) :
    persistedConfidence ⟨some c, cts, ai⟩ = c := by
  show (if c = 0 then (0 : ℚ) else c) = c
  split_ifs with h
  · exact h.symm
  · rfl

/-- Characterization of the auto-sync gate in terms of the persisted
values. -/
theorem shouldAutoSync_iff (d : ExtractedData) :
    shouldAutoSync d = true ↔
      0.8 ≤ persistedConfidence d ∧ persistedContacts d ≠ [] := by
  obtain ⟨cs, cts, ai⟩ := d
  cases cs with
  | none =>
      simp [shouldAutoSync, persistedConfidence]
      norm_num
  | some c =>
      cases cts with
      | none =>
          simp [shouldAutoSync, persistedContacts]
      | some l =>
          rw [persistedConfidence_some]
          simp [shouldAutoSync, persistedContacts, List.length_pos]

/-- C4: the Analysis Stage fires the Sync Stage exactly once when the
persisted confidence score is at least 0.8 and at least one contact was
extracted, and not at all when the confidence is below 0.8 or no contact was
extracted. -/
theorem analysis_auto_sync_gate :
    ∀ d : ExtractedData,
      (autoSyncInvocations d = 0 ↔
        persistedConfidence d < 0.8 ∨ persistedContacts d = []) ∧
      (autoSyncInvocations d = 1 ↔
        0.8 ≤ persistedConfidence d ∧ persistedContacts d ≠ []) := by
  intro d
  by_cases h : shouldAutoSync d = true
  · have hrhs := (shouldAutoSync_iff d).mp h
    have hinv : autoSyncInvocations d = 1 := by
      simp [autoSyncInvocations, h]
    constructor
    · rw [hinv]
      constructor
      · intro h1
        exact absurd h1 one_ne_zero
      · intro h1
        exfalso
        rcases h1 with h1 | h1
        · exact absurd hrhs.1 (not_le.mpr h1)
        · exact absurd h1 hrhs.2
    · rw [hinv]
      exact iff_of_true rfl hrhs
  · have hb : shouldAutoSync d = false := by
      cases hsb : shouldAutoSync d
      · rfl
      · exact absurd hsb h
    have hrhs : ¬ (0.8 ≤ persistedConfidence d ∧ persistedContacts d ≠ []) := by
      intro hcontra
      exact h ((shouldAutoSync_iff d).mpr hcontra)
    rw [not_and_or, not_le, not_not] at hrhs
    have hinv : autoSyncInvocations d = 0 := by
      simp [autoSyncInvocations, hb]
    constructor
    · rw [hinv]
      exact iff_of_true rfl hrhs
    · rw [hinv]
      constructor
      · intro h1
        exact absurd h1 zero_ne_one
      · intro h1
        exfalso
        rcases hrhs with h2 | h2
        · exact absurd h1.1 (not_le.mpr h2)
        · exact absurd h2 h1.2

/-- Both loops attempt every item: the synced list and the error list
lengths of the contact loop sum to the number of contacts. -/
theorem runContactSync_length (l : List SFContact)
    (oracle : Nat → ItemOutcome) :
    ∀ i, (runContactSync l oracle i).1.length +
      (runContactSync l oracle i).2.length = l.length := by
  induction l with
  | nil =>
      intro i
      simp [runContactSync]
  | cons c rest ih =>
      intro i
      have hr := ih (i + 1)
      cases h : oracle i with
      | ok id =>
          simp only [runContactSync, h, List.length_cons]
          omega
      | err m =>
          simp only [runContactSync, h, List.length_cons]
          omega

/-- Both loops attempt every item: the synced list and the error list
lengths of the task loop sum to the number of tasks. -/
theorem runTaskSync_length (l : List SFTask)
    (oracle : Nat → ItemOutcome) :
    ∀ i, (runTaskSync l oracle i).1.length +
      (runTaskSync l oracle i).2.length = l.length := by
  induction l with
  | nil =>
      intro i
      simp [runTaskSync]
  | cons t rest ih =>
      intro i
      have hr := ih (i + 1)
      cases h : oracle i with
      | ok id =>
          simp only [runTaskSync, h, List.length_cons]
          omega
      | err m =>
          simp only [runTaskSync, h, List.length_cons]
          omega

/-- C5: for a sync invocation reaching the per-item loop with N contacts and
M action items, the SyncLog status is completed iff zero per-item operations
failed, failed iff zero operations succeeded while N + M is positive, and
partial iff some succeeded and some failed. -/
theorem crm_sync_status_classification :
    ∀ (contacts : List SFContact) (tasks : List SFTask)
      (contactOracle taskOracle : Nat → ItemOutcome),
      (syncOutcomeStatus contacts tasks
          (runContactSync contacts contactOracle 0).1
          (runTaskSync tasks taskOracle 0).1
          ((runContactSync contacts contactOracle 0).2 ++
            (runTaskSync tasks taskOracle 0).2) = "completed" ↔
        (runContactSync contacts contactOracle 0).2.length +
          (runTaskSync tasks taskOracle 0).2.length = 0) ∧
      (syncOutcomeStatus contacts tasks
          (runContactSync contacts contactOracle 0).1
          (runTaskSync tasks taskOracle 0).1
          ((runContactSync contacts contactOracle 0).2 ++
            (runTaskSync tasks taskOracle 0).2) = "failed" ↔
        (runContactSync contacts contactOracle 0).1.length +
          (runTaskSync tasks taskOracle 0).1.length = 0 ∧
          0 < contacts.length + tasks.length) ∧
      (syncOutcomeStatus contacts tasks
          (runContactSync contacts contactOracle 0).1
          (runTaskSync tasks taskOracle 0).1
          ((runContactSync contacts contactOracle 0).2 ++
            (runTaskSync tasks taskOracle 0).2) = "partial" ↔
        0 < (runContactSync contacts contactOracle 0).1.length +
            (runTaskSync tasks taskOracle 0).1.length ∧
        0 < (runContactSync contacts contactOracle 0).2.length +
            (runTaskSync tasks taskOracle 0).2.length) := by
  intro contacts tasks contactOracle taskOracle
  have hc := runContactSync_length contacts contactOracle 0
  have ht := runTaskSync_length tasks taskOracle 0
  unfold syncOutcomeStatus
  split_ifs with h1 h2
  · refine ⟨⟨fun h => absurd h (by decide), fun h => ?_⟩,
      ⟨fun _ => ?_, fun _ => rfl⟩,
      ⟨fun h => absurd h (by decide), fun h => ?_⟩⟩
    · exfalso
      omega
    · constructor
      · omega
      · omega
    · exfalso
      rcases h with ⟨ha, hb⟩
      omega
  · rw [List.length_append] at h2
    refine ⟨⟨fun h => absurd h (by decide), fun h => ?_⟩,
      ⟨fun h => absurd h (by decide), fun h => ?_⟩,
      ⟨fun _ => ⟨?_, ?_⟩, fun _ => rfl⟩⟩
    · exfalso
      omega
    · exfalso
      rcases h with ⟨hz, hpos⟩
      omega
    · omega
    · omega
  · rw [List.length_append] at h2
    refine ⟨⟨fun _ => ?_, fun _ => rfl⟩,
      ⟨fun h => absurd h (by decide), fun h => ?_⟩,
      ⟨fun h => absurd h (by decide), fun h => ?_⟩⟩
    · omega
    · exfalso
      rcases h with ⟨hz, hpos⟩
      omega
    · exfalso
      rcases h with ⟨ha, hb⟩
      omega

/-- The connected-path classification never produces the skipped status. -/
theorem syncOutcomeStatus_ne_skipped (contacts : List SFContact)
    (tasks : List SFTask) (syncedContacts syncedTasks errors : List String) :
    syncOutcomeStatus contacts tasks syncedContacts syncedTasks errors ≠
      "skipped" := by
  unfold syncOutcomeStatus
  split_ifs with h1 h2
  · decide
  · decide
  · decide

/-- C6 counterexample: a connected user with nothing to do (no contacts, no
action items) gets the completed classification, not skipped, refuting that
skipped covers the nothing-to-do case. -/
theorem crm_sync_nothing_to_do_completed :
    (crmSyncHandler
        ⟨some "salesforce", true, some "tok",
          some "https://example.my.salesforce.com"⟩
        ⟨some [], some []⟩ (fun _ => .ok "x") (fun _ => .ok "x")).logStatus
      = "completed" ∧
    (crmSyncHandler
        ⟨some "salesforce", true, some "tok",
          some "https://example.my.salesforce.com"⟩
        ⟨some [], some []⟩ (fun _ => .ok "x") (fun _ => .ok "x")).logStatus
      ≠ "skipped" := by
  constructor
  · rfl
  · decide

/-- C6 (amended): the SyncLog status is skipped exactly when the user has no
connected CRM credential (a connected user with nothing to do is classified
completed); in the no-credential case the handler writes the skipped SyncLog
row and returns a non-error HTTP 200 response, with zero CRM API operations
attempted. -/
theorem crm_sync_skipped_iff_not_connected :
    ∀ (p : CrmProfile) (a : AnalysisRow) (co tk : Nat → ItemOutcome),
      ((crmSyncHandler p a co tk).logStatus = "skipped" ↔
        ¬ (p.crm_connected ∧ jsTruthy p.crm_access_token)) ∧
      (¬ (p.crm_connected ∧ jsTruthy p.crm_access_token) →
        crmSyncHandler p a co tk =
          { logStatus := "skipped", httpStatus := 200, respSuccess := false,
            crmItemOps := 0, recordingSetSynced := false }) := by
  intro p a co tk
  by_cases h1 : p.crm_connected ∧ jsTruthy p.crm_access_token
  · have hne : (crmSyncHandler p a co tk).logStatus ≠ "skipped" := by
      unfold crmSyncHandler
      rw [if_neg (not_not_intro h1)]
      split_ifs with h2 h3 <;>
        first
        | exact syncOutcomeStatus_ne_skipped _ _ _ _ _
        | decide
    exact ⟨iff_of_false hne (not_not_intro h1), fun hcon => absurd h1 hcon⟩
  · have hred : crmSyncHandler p a co tk =
        { logStatus := "skipped", httpStatus := 200, respSuccess := false,
          crmItemOps := 0, recordingSetSynced := false } := by
      unfold crmSyncHandler
      rw [if_pos h1]
    constructor
    · rw [hred]
      exact iff_of_true rfl h1
    · intro _
      exact hred

/-- Witness for the amended C6 theorem: a profile with no connection flag
and no token gets the full skip response. -/
theorem crm_sync_skipped_witness :
    crmSyncHandler ⟨none, false, none, none⟩ ⟨none, none⟩
        (fun _ => .ok "x") (fun _ => .ok "x") =
      { logStatus := "skipped", httpStatus := 200, respSuccess := false,
        crmItemOps := 0, recordingSetSynced := false } :=
  (crm_sync_skipped_iff_not_connected ⟨none, false, none, none⟩ ⟨none, none⟩
    (fun _ => .ok "x") (fun _ => .ok "x")).2 (by decide)

/-- C8: under the pipeline chain, every recording status trace is a
non-decreasing walk through the stage statuses, where the only admissible
exception is a direct jump to failed; no stage moves the status backwards
otherwise. -/
theorem recording_status_monotone :
    ∀ (t a : StageRun) (autoSync syncCompleted : Bool),
      statusChainOk (pipelineStatusTrace t a autoSync syncCompleted) = true := by
  intro t a autoSync syncCompleted
  cases t <;> cases a <;> cases autoSync <;> cases syncCompleted <;> decide

/-- A truthy possibly-null string is a non-empty string. -/
theorem optStr_ne_empty_of_jsTruthy (o : Option String)
    (h : jsTruthy o = true) : optStr o ≠ "" := by
  cases o with
  | none => simp [jsTruthy] at h
  | some s =>
      simp [jsTruthy] at h
      simpa [optStr] using h

/-- A JS or-chain over two possibly-null strings and a non-empty literal is
non-empty. -/
theorem firstTruthyStr_ne_empty (a b : Option String) (c : String)
    (hc : c ≠ "") : firstTruthyStr a b c ≠ "" := by
  unfold firstTruthyStr
  split_ifs with h1 h2
  · exact optStr_ne_empty_of_jsTruthy a h1
  · exact optStr_ne_empty_of_jsTruthy b h2
  · exact hc

/-- C10: the contact payload sent to both the CRM create and update calls
always carries a non-empty LastName, computed as the last space-separated
name part, else the whole name, else the literal Unknown, under JS
truthiness. -/
theorem contact_payload_lastname_nonempty :
    ∀ c : SFContact,
      (mkContactData c).LastName ≠ "" ∧
      (mkContactData c).LastName =
        firstTruthyStr (sfNameParts c.name).getLast? c.name "Unknown" := by
  intro c
  exact ⟨firstTruthyStr_ne_empty _ _ _ (by decide), rfl⟩

end FieldIntel
